import Mathlib

/-!
Verification of the RLS Guard Dog authorization rules.

The repository's access-control logic lives in several generations of
Postgres row-level-security policies plus client-side helper functions:

* `supabase/schema.sql` (lines 140-222): the schema-level policy set
  ("Users can view schools", "Teachers can view progress for their school",
  "Teachers can insert/update/delete progress they created",
  "Service role can manage ..." FOR ALL policies).
* `supabase/rls-policies.sql` (lines 1-227): the class-scoped policy set
  (`get_current_user_role`, `get_current_user_school_id`, the three-tier
  progress SELECT policy, and class-membership-scoped INSERT/UPDATE/DELETE).
* the "Fixed RLS Policies (No Recursion)" set and the "ULTIMATE FIX" set
  (both concatenated into `supabase/functions/calculate-class-averages/index.ts`):
  progressively coarser policies, ending with flat `auth.role() = 'authenticated'`
  checks on the progress table.
* client helpers (`getUserProfile`, `createProgress`, ...) in the database
  utility module.

Every definition below is a shallow embedding of one of those artifacts,
evaluated over an explicit database state (lists of rows) and an
authentication context (`auth.uid()`, `auth.role()`, `auth.jwt() ->> 'role'`).
UUIDs are modelled as naturals; `DECIMAL(5,2)` values are modelled exactly as
integer counts of hundredths, with a bridging lemma relating the integer
rounding to the mathematical rounding function on rationals.
-/

/-- Role values allowed in the `teachers` table: the schema constraint
`teachers_role_check CHECK (role IN ('teacher', 'head_teacher'))`. -/
inductive TeacherRole where
  | teacher
  | head_teacher
deriving DecidableEq, Repr

/-- The `user_role` enum of the schema: `('student', 'teacher', 'head_teacher')`. -/
inductive UserRole where
  | student
  | teacher
  | head_teacher
deriving DecidableEq, Repr

/-- A row of the `schools` table (columns relevant to the policies). -/
structure School where
  id : Nat
  name : String
deriving DecidableEq, Repr

/-- A row of the `teachers` table (columns relevant to the policies). -/
structure Teacher where
  id : Nat
  user_id : Nat
  school_id : Nat
  role : TeacherRole
  classes : List String
deriving DecidableEq, Repr

/-- A row of the `students` table (columns relevant to the policies). -/
structure Student where
  id : Nat
  user_id : Nat
  school_id : Nat
  class_name : String
deriving DecidableEq, Repr

/-- A row of the `progress` table.  `teacher_id` is nullable
(`REFERENCES teachers(id) ON DELETE SET NULL`).  `score`, `max_score` and the
generated column `percentage_score` are `DECIMAL(5,2)` values, represented
exactly as integer counts of hundredths (so the decimal value 85.00 is stored
as 8500); all three are non-negative in every reachable state, so `Nat`
suffices. -/
structure ProgressRow where
  student_id : Nat
  teacher_id : Option Nat
  school_id : Nat
  subject : String
  score : Nat
  max_score : Nat
  percentage_score : Nat
deriving DecidableEq, Repr

/-- The database state the policies are evaluated over. -/
structure Db where
  teachers : List Teacher
  students : List Student
  progress : List ProgressRow
deriving Repr

/-- The authentication context of a request: `auth.uid()` (none when not
signed in), `auth.role()` and `auth.jwt() ->> 'role'`. -/
structure Auth where
  uid : Option Nat
  aRole : String
  jwtRole : String
deriving DecidableEq, Repr

/-- The SQL predicate `user_id = auth.uid()` (false when `auth.uid()` is NULL). -/
def authUidIs (a : Auth) (n : Nat) : Bool :=
  a.uid == some n

/-- The SQL predicate `auth.jwt() ->> 'role' = 'service_role'`. -/
def isServiceRole (a : Auth) : Bool :=
  a.jwtRole == "service_role"

/-- The SQL predicate `auth.role() = 'authenticated'`. -/
def isAuthenticated (a : Auth) : Bool :=
  a.aRole == "authenticated"

/-- The scalar subquery `SELECT ... FROM teachers WHERE user_id = auth.uid()`:
the teacher row of the current user (first match). -/
def firstTeacherFor (db : Db) (a : Auth) : Option Teacher :=
  db.teachers.find? (fun t => authUidIs a t.user_id)

/-- The scalar subquery `SELECT ... FROM students WHERE user_id = auth.uid()`:
the student row of the current user (first match). -/
def firstStudentFor (db : Db) (a : Auth) : Option Student :=
  db.students.find? (fun s => authUidIs a s.user_id)

/-- The `user_role` carried by a `teachers` row, as a value of the enum. -/
def teacherRoleAsUserRole : TeacherRole → UserRole
  | TeacherRole.teacher => UserRole.teacher
  | TeacherRole.head_teacher => UserRole.head_teacher

/-- `get_current_user_role()` from rls-policies.sql: the teacher row's role if
the user is a teacher, else 'student' if the user is a student, else the
default 'student' ("Default to student if no role found").  The last two
branches both return 'student', so the student lookup is collapsed here. -/
def get_current_user_role (db : Db) (a : Auth) : UserRole :=
  match firstTeacherFor db a with
  | some t => teacherRoleAsUserRole t.role
  | none => UserRole.student

/-- `get_current_user_school_id()` from rls-policies.sql: the teacher row's
school if the user is a teacher, else the student row's school, else NULL. -/
def get_current_user_school_id (db : Db) (a : Auth) : Option Nat :=
  match firstTeacherFor db a with
  | some t => some t.school_id
  | none =>
    match firstStudentFor db a with
    | some s => some s.school_id
    | none => none

/-- The SQL predicate `school_id = get_current_user_school_id()` on a row's
school column (false when the helper returns NULL). -/
def schoolMatchesCurrent (db : Db) (a : Auth) (sid : Nat) : Bool :=
  get_current_user_school_id db a == some sid

/-- Policy "Students can view their own progress" (both policy files):
`student_id IN (SELECT id FROM students WHERE user_id = auth.uid())`. -/
def studentsOwnProgressSelect (db : Db) (a : Auth) (e : ProgressRow) : Bool :=
  db.students.any (fun s => authUidIs a s.user_id && s.id == e.student_id)

/-- The join subquery shared by the class-scoped progress policies:
`student_id IN (SELECT s.id FROM students s JOIN teachers t ON t.user_id =
auth.uid() WHERE s.school_id = t.school_id AND s.class_name = ANY(t.classes))`. -/
def studentInTeacherClasses (db : Db) (a : Auth) (sid : Nat) : Bool :=
  db.students.any (fun s => s.id == sid &&
    db.teachers.any (fun t => authUidIs a t.user_id &&
      s.school_id == t.school_id && t.classes.contains s.class_name))

/-- Policy "Teachers can view progress of students in their classes"
(rls-policies.sql lines 129-150): the CASE over `get_current_user_role()`;
head teachers see the whole school, regular teachers only students of their
classes, anyone else gets FALSE. -/
def teachersViewProgressSelect (db : Db) (a : Auth) (e : ProgressRow) : Bool :=
  match get_current_user_role db a with
  | UserRole.head_teacher => schoolMatchesCurrent db a e.school_id
  | UserRole.teacher =>
      schoolMatchesCurrent db a e.school_id &&
      studentInTeacherClasses db a e.student_id
  | UserRole.student => false

/-- The combined SELECT decision on `progress` under the class-scoped policy
file: permissive policies OR together. -/
def rlsProgressSelect (db : Db) (a : Auth) (e : ProgressRow) : Bool :=
  studentsOwnProgressSelect db a e || teachersViewProgressSelect db a e

/-- The SQL test `get_current_user_role() IN ('teacher', 'head_teacher')`. -/
def roleIsTeaching : UserRole → Bool
  | UserRole.teacher => true
  | UserRole.head_teacher => true
  | UserRole.student => false

/-- The SQL test `get_current_user_role() = 'head_teacher'`. -/
def roleIsHead : UserRole → Bool
  | UserRole.head_teacher => true
  | UserRole.teacher => false
  | UserRole.student => false

/-- The shared body of the class-scoped INSERT WITH CHECK and UPDATE/DELETE
USING clauses on `progress` (rls-policies.sql lines 152-201), applied to the
row's `student_id` and `school_id` columns. -/
def rlsTeacherWriteCheck (db : Db) (a : Auth) (studentId schoolId : Nat) : Bool :=
  roleIsTeaching (get_current_user_role db a) &&
  schoolMatchesCurrent db a schoolId &&
  (roleIsHead (get_current_user_role db a) ||
   studentInTeacherClasses db a studentId)

/-- Policy "Teachers can insert progress for students in their classes". -/
def rlsProgressInsert (db : Db) (a : Auth) (r : ProgressRow) : Bool :=
  rlsTeacherWriteCheck db a r.student_id r.school_id

/-- Policy "Teachers can update progress for students in their classes". -/
def rlsProgressUpdate (db : Db) (a : Auth) (e : ProgressRow) : Bool :=
  rlsTeacherWriteCheck db a e.student_id e.school_id

/-- Policy "Teachers can delete progress for students in their classes". -/
def rlsProgressDelete (db : Db) (a : Auth) (e : ProgressRow) : Bool :=
  rlsTeacherWriteCheck db a e.student_id e.school_id

/-- Policy "Users can view their own school" (rls-policies.sql lines 50-52):
`id = get_current_user_school_id()`. -/
def rlsSchoolsSelect (db : Db) (a : Auth) (sch : School) : Bool :=
  get_current_user_school_id db a == some sch.id

/-- Policy "Users can view schools" (schema.sql lines 150-151): `USING (true)`. -/
def schemaSchoolsSelect (_sch : School) : Bool :=
  true

/-- The subquery `teacher_id IN (SELECT id FROM teachers WHERE user_id =
auth.uid())` of the schema-level progress write policies. -/
def ownTeacherIdMatches (db : Db) (a : Auth) (tid : Option Nat) : Bool :=
  db.teachers.any (fun t => authUidIs a t.user_id && some t.id == tid)

/-- The combined SELECT decision on `progress` under the schema-level policy
set: "Students can view their own progress" OR "Teachers can view progress for
their school" (school_id in the user's teacher schools, no class restriction)
OR "Service role can manage progress". -/
def schemaProgressSelect (db : Db) (a : Auth) (e : ProgressRow) : Bool :=
  studentsOwnProgressSelect db a e ||
  db.teachers.any (fun t => authUidIs a t.user_id && t.school_id == e.school_id) ||
  isServiceRole a

/-- The combined INSERT decision on `progress` under the schema-level policy
set: "Teachers can insert progress" (teacher_id owned) OR the service policy. -/
def schemaProgressInsert (db : Db) (a : Auth) (r : ProgressRow) : Bool :=
  ownTeacherIdMatches db a r.teacher_id || isServiceRole a

/-- The combined UPDATE decision on `progress` under the schema-level policy
set: "Teachers can update progress they created" OR the service policy. -/
def schemaProgressUpdate (db : Db) (a : Auth) (e : ProgressRow) : Bool :=
  ownTeacherIdMatches db a e.teacher_id || isServiceRole a

/-- The combined DELETE decision on `progress` under the schema-level policy
set: "Teachers can delete progress they created" OR the service policy. -/
def schemaProgressDelete (db : Db) (a : Auth) (e : ProgressRow) : Bool :=
  ownTeacherIdMatches db a e.teacher_id || isServiceRole a

/-- Policy "Teachers can insert progress" of the "Fixed RLS Policies (No
Recursion)" set: teacher_id owned AND school_id among the user's teacher
schools; no class-membership restriction. -/
def fixedProgressInsert (db : Db) (a : Auth) (r : ProgressRow) : Bool :=
  db.teachers.any (fun t => authUidIs a t.user_id && some t.id == r.teacher_id) &&
  db.teachers.any (fun t => authUidIs a t.user_id && t.school_id == r.school_id)

/-- The combined SELECT decision on `progress` under the "ULTIMATE FIX" set:
`progress_service_role_policy` (FOR ALL) OR `progress_authenticated_read_policy`
(`USING (auth.role() = 'authenticated')`); the row is not inspected at all. -/
def ultimateProgressSelect (a : Auth) : Bool :=
  isServiceRole a || isAuthenticated a

/-- The combined INSERT decision under the "ULTIMATE FIX" set. -/
def ultimateProgressInsert (a : Auth) : Bool :=
  isServiceRole a || isAuthenticated a

/-- The combined UPDATE decision under the "ULTIMATE FIX" set. -/
def ultimateProgressUpdate (a : Auth) : Bool :=
  isServiceRole a || isAuthenticated a

/-- The combined DELETE decision under the "ULTIMATE FIX" set. -/
def ultimateProgressDelete (a : Auth) : Bool :=
  isServiceRole a || isAuthenticated a

/-- The `.single()` lookup of the client helpers: the query succeeds exactly
when the filter matches one row (zero or several rows produce an error, which
the callers treat as "no profile"). -/
def singleTeacherFor (db : Db) (a : Auth) : Option Teacher :=
  match db.teachers.filter (fun t => authUidIs a t.user_id) with
  | [t] => some t
  | _ => none

/-- Same `.single()` lookup on the `students` table. -/
def singleStudentFor (db : Db) (a : Auth) : Option Student :=
  match db.students.filter (fun s => authUidIs a s.user_id) with
  | [s] => some s
  | _ => none

/-- The profile value returned by `getUserProfile`. -/
inductive UserProfile where
  | teacherProfile (t : Teacher)
  | studentProfile (s : Student)
deriving DecidableEq, Repr

/-- `getUserProfile` from the database utility module: first query the
`teachers` table by `user_id`; on success return the teacher profile with its
role; otherwise query `students` and return a student profile with role
'student'; otherwise throw "User profile not found". -/
def getUserProfile (db : Db) (a : Auth) : Except String (UserProfile × UserRole) :=
  match singleTeacherFor db a with
  | some t => Except.ok (UserProfile.teacherProfile t, teacherRoleAsUserRole t.role)
  | none =>
    match singleStudentFor db a with
    | some s => Except.ok (UserProfile.studentProfile s, UserRole.student)
    | none => Except.error ("User profile not found")

/-- Rounding of the ratio `n / d` to the nearest integer, half up (Postgres
`ROUND` is half away from zero, which agrees on the non-negative operands that
occur here), computed on integers: `(2n + d) / (2d)` with truncating natural
division.  `roundRatioCenti_eq_round` below ties it to the mathematical
rounding function. -/
def roundRatioCenti (n d : Nat) : Nat :=
  (2 * n + d) / (2 * d)

/-- The generated column of the `progress` table,
`ROUND((score / max_score) * 100, 2)`, on the hundredths representation: a
stored percentage of `p` hundredths represents the decimal `p / 100`, and
`(score / max_score) * 100 * 100 = (score_hundredths * 10000) / max_hundredths`. -/
def generatedPercentageScore (score maxScore : Nat) : Nat :=
  roundRatioCenti (score * 10000) maxScore

/-- The decimal value represented by a count of hundredths. -/
def decimalValue (c : Nat) : ℚ :=
  (c : ℚ) / 100

/-- The payload of `createProgress`.  The declared TypeScript request type is
not part of the snapshot; the fields are those the helper forwards, plus
`teacher_id`/`school_id` slots which a caller may supply in the JSON body but
which the object spread in `createProgress` always overwrites.  Scores are in
hundredths, as in `ProgressRow`. -/
structure CreateProgressRequest where
  student_id : Nat
  subject : String
  score : Nat
  max_score : Nat
  teacher_id : Option Nat
  school_id : Option Nat
deriving DecidableEq, Repr

/-- `createProgress` from the database utility module: require an
authenticated user, look up the caller's teacher row, and insert the payload
with `teacher_id` and `school_id` replaced by the teacher row's values
(`{ ...progressData, teacher_id: teacher.id, school_id: teacher.school_id }`).
The stored `percentage_score` is the table's generated column.  The table's
CHECK constraints are modelled separately by `insertProgressRow`. -/
def createProgress (db : Db) (a : Auth) (p : CreateProgressRequest) :
    Except String ProgressRow :=
  match a.uid with
  | none => Except.error ("User not authenticated")
  | some _ =>
    match singleTeacherFor db a with
    | none => Except.error ("Teacher profile not found")
    | some t =>
      Except.ok
        { student_id := p.student_id
          teacher_id := some t.id
          school_id := t.school_id
          subject := p.subject
          score := p.score
          max_score := p.max_score
          percentage_score := generatedPercentageScore p.score p.max_score }

/-- The `progress` table contents after a `createProgress` call: unchanged
when the helper throws, extended by the inserted row when it succeeds. -/
def progressAfterCreate (db : Db) (a : Auth) (p : CreateProgressRequest) :
    List ProgressRow :=
  match createProgress db a p with
  | Except.ok r => db.progress ++ [r]
  | Except.error _ => db.progress

/-- An INSERT into the `progress` table (schema.sql lines 79-94): the CHECK
constraints `score >= 0 AND score <= 100` and `max_score > 0` gate the row
(on hundredths: `score ≤ 10000` and `0 < max_score`; `0 ≤ score` is inherent
in the representation), and `percentage_score` is `GENERATED ALWAYS AS
(ROUND((score / max_score) * 100, 2)) STORED` - it cannot be supplied by the
writer, so this function takes no percentage argument. -/
def insertProgressRow (studentId : Nat) (teacherId : Option Nat)
    (schoolId : Nat) (subj : String) (score maxScore : Nat) : Option ProgressRow :=
  if score ≤ 10000 ∧ 0 < maxScore then
    some
      { student_id := studentId
        teacher_id := teacherId
        school_id := schoolId
        subject := subj
        score := score
        max_score := maxScore
        percentage_score := generatedPercentageScore score maxScore }
  else none

/-- An UPDATE of the score columns of a stored `progress` row: the same CHECK
constraints apply and the generated `percentage_score` is recomputed. -/
def updateProgressScores (e : ProgressRow) (score maxScore : Nat) :
    Option ProgressRow :=
  if score ≤ 10000 ∧ 0 < maxScore then
    some
      { e with
        score := score
        max_score := maxScore
        percentage_score := generatedPercentageScore score maxScore }
  else none

/-- Wellformedness: `user_id` identifies at most one `teachers` row (the
scalar subqueries of the SQL helper functions assume this). -/
abbrev atMostOneTeacherPerUser (db : Db) : Prop :=
  ∀ t1 ∈ db.teachers, ∀ t2 ∈ db.teachers, t1.user_id = t2.user_id → t1 = t2

/-- Wellformedness: `user_id` identifies at most one `students` row. -/
abbrev atMostOneStudentPerUser (db : Db) : Prop :=
  ∀ s1 ∈ db.students, ∀ s2 ∈ db.students, s1.user_id = s2.user_id → s1 = s2

/-- Wellformedness: no user owns both a teacher row and a student row. -/
abbrev noDualProfile (db : Db) : Prop :=
  ∀ t ∈ db.teachers, ∀ s ∈ db.students, t.user_id ≠ s.user_id

/-- Wellformedness: every stored progress row carries the school of its
student (the cross-field invariant of the data model). -/
abbrev progressSchoolConsistent (db : Db) : Prop :=
  ∀ e ∈ db.progress, ∀ s ∈ db.students, s.id = e.student_id →
    e.school_id = s.school_id

/-- A found teacher row belongs to the table and carries the caller's uid. -/
theorem firstTeacherFor_spec {db : Db} {a : Auth} {t : Teacher}
    (h : firstTeacherFor db a = some t) :
    t ∈ db.teachers ∧ a.uid = some t.user_id := by
  refine ⟨List.mem_of_find?_eq_some h, ?_⟩
  have := List.find?_some h
  simpa [authUidIs] using this

/-- With a found teacher row, `get_current_user_role` returns its role. -/
theorem role_of_firstTeacher {db : Db} {a : Auth} {t : Teacher}
    (h : firstTeacherFor db a = some t) :
    get_current_user_role db a = teacherRoleAsUserRole t.role := by
  simp [get_current_user_role, h]

/-- With a found teacher row, `get_current_user_school_id` returns its school. -/
theorem school_of_firstTeacher {db : Db} {a : Auth} {t : Teacher}
    (h : firstTeacherFor db a = some t) :
    get_current_user_school_id db a = some t.school_id := by
  simp [get_current_user_school_id, h]

/-- Without a teacher row, `get_current_user_role` defaults to student. -/
theorem role_of_no_firstTeacher {db : Db} {a : Auth}
    (h : firstTeacherFor db a = none) :
    get_current_user_role db a = UserRole.student := by
  simp [get_current_user_role, h]

/-- A teacher-table role always passes the `IN ('teacher', 'head_teacher')` test. -/
theorem roleIsTeaching_teacherRole (r : TeacherRole) :
    roleIsTeaching (teacherRoleAsUserRole r) = true := by
  cases r <;> rfl

/-- A teacher-table role passes the head-teacher test iff it is head_teacher. -/
theorem roleIsHead_teacherRole (r : TeacherRole) :
    roleIsHead (teacherRoleAsUserRole r) = decide (r = TeacherRole.head_teacher) := by
  cases r <;> rfl

/-- Unfolding of the "Students can view their own progress" policy. -/
theorem studentsOwnProgressSelect_iff (db : Db) (a : Auth) (e : ProgressRow) :
    studentsOwnProgressSelect db a e = true ↔
      ∃ s ∈ db.students, a.uid = some s.user_id ∧ s.id = e.student_id := by
  simp [studentsOwnProgressSelect, List.any_eq_true, authUidIs]

/-- Unfolding of the class-membership join subquery, when the caller's uid
identifies at most one teacher row and that row has been found. -/
theorem studentInTeacherClasses_iff {db : Db} {a : Auth} {t : Teacher}
    (hT : atMostOneTeacherPerUser db) (hF : firstTeacherFor db a = some t)
    (sid : Nat) :
    studentInTeacherClasses db a sid = true ↔
      ∃ s ∈ db.students, s.id = sid ∧ s.school_id = t.school_id ∧
        s.class_name ∈ t.classes := by
  obtain ⟨htMem, htUid⟩ := firstTeacherFor_spec hF
  constructor
  · intro h
    obtain ⟨s, hsMem, hp⟩ := List.any_eq_true.mp h
    rw [Bool.and_eq_true] at hp
    obtain ⟨h1, h2⟩ := hp
    obtain ⟨t2, ht2Mem, hq⟩ := List.any_eq_true.mp h2
    rw [Bool.and_eq_true, Bool.and_eq_true] at hq
    obtain ⟨⟨hq1, hq2⟩, hq3⟩ := hq
    have ht2u : a.uid = some t2.user_id := eq_of_beq hq1
    have ht2eq : t2 = t :=
      hT t2 ht2Mem t htMem (Option.some.inj (ht2u.symm.trans htUid))
    subst ht2eq
    refine ⟨s, hsMem, eq_of_beq h1, eq_of_beq hq2, ?_⟩
    simpa [List.contains, List.elem_iff] using hq3
  · rintro ⟨s, hsMem, hsId, hsSch, hcls⟩
    refine List.any_eq_true.mpr ⟨s, hsMem, ?_⟩
    rw [Bool.and_eq_true]
    refine ⟨beq_of_eq hsId, ?_⟩
    refine List.any_eq_true.mpr ⟨t, htMem, ?_⟩
    rw [Bool.and_eq_true, Bool.and_eq_true]
    refine ⟨⟨?_, beq_of_eq hsSch⟩, ?_⟩
    · simpa [authUidIs] using htUid
    · simpa [List.contains, List.elem_iff] using hcls

/-- Characterization of the clause shared by the class-scoped INSERT, UPDATE
and DELETE policies on `progress`: a write on (student, school) passes iff the
caller resolves to a teacher row of that school and is a head teacher or the
student is one of theirs.  The entry's `teacher_id` plays no part. -/
theorem rlsTeacherWriteCheck_iff (db : Db) (a : Auth) (sid schid : Nat)
    (hT : atMostOneTeacherPerUser db) :
    rlsTeacherWriteCheck db a sid schid = true ↔
      ∃ t, firstTeacherFor db a = some t ∧ schid = t.school_id ∧
        (t.role = TeacherRole.head_teacher ∨
         ∃ s ∈ db.students, s.id = sid ∧ s.school_id = t.school_id ∧
           s.class_name ∈ t.classes) := by
  cases hF : firstTeacherFor db a with
  | none =>
    simp [rlsTeacherWriteCheck, role_of_no_firstTeacher hF, hF, roleIsTeaching]
  | some t =>
    have hsch := school_of_firstTeacher hF
    have hrole := role_of_firstTeacher hF
    constructor
    · intro h
      simp only [rlsTeacherWriteCheck, hrole, roleIsTeaching_teacherRole,
        roleIsHead_teacherRole, true_and, Bool.and_eq_true, Bool.or_eq_true,
        decide_eq_true_eq, schoolMatchesCurrent, hsch, beq_iff_eq,
        Option.some.injEq] at h
      obtain ⟨hs, hrest⟩ := h
      refine ⟨t, rfl, hs.symm, ?_⟩
      rcases hrest with hh | hc
      · exact Or.inl hh
      · exact Or.inr ((studentInTeacherClasses_iff hT hF sid).mp hc)
    · rintro ⟨t2, ht2, hs, hcond⟩
      obtain rfl : t = t2 := Option.some.inj ht2
      simp only [rlsTeacherWriteCheck, hrole, roleIsTeaching_teacherRole,
        roleIsHead_teacherRole, true_and, Bool.and_eq_true, Bool.or_eq_true,
        decide_eq_true_eq, schoolMatchesCurrent, hsch, beq_iff_eq,
        Option.some.injEq]
      refine ⟨hs.symm, ?_⟩
      rcases hcond with hh | hc
      · exact Or.inl hh
      · exact Or.inr ((studentInTeacherClasses_iff hT hF sid).mpr hc)

/-- Characterization of the three-tier CASE policy "Teachers can view
progress of students in their classes". -/
theorem teachersViewProgressSelect_iff (db : Db) (a : Auth) (e : ProgressRow)
    (hT : atMostOneTeacherPerUser db) :
    teachersViewProgressSelect db a e = true ↔
      (∃ t, firstTeacherFor db a = some t ∧ t.role = TeacherRole.head_teacher ∧
        e.school_id = t.school_id) ∨
      (∃ t, firstTeacherFor db a = some t ∧ t.role = TeacherRole.teacher ∧
        e.school_id = t.school_id ∧
        ∃ s ∈ db.students, s.id = e.student_id ∧ s.school_id = t.school_id ∧
          s.class_name ∈ t.classes) := by
  cases hF : firstTeacherFor db a with
  | none =>
    simp [teachersViewProgressSelect, role_of_no_firstTeacher hF, hF]
  | some t =>
    have hsch := school_of_firstTeacher hF
    have hrole := role_of_firstTeacher hF
    cases ht : t.role with
    | head_teacher =>
      rw [ht] at hrole
      simp only [teacherRoleAsUserRole] at hrole
      simp only [teachersViewProgressSelect, hrole, schoolMatchesCurrent, hsch,
        beq_iff_eq, Option.some.injEq]
      constructor
      · intro hs
        exact Or.inl ⟨t, rfl, ht, hs.symm⟩
      · rintro (⟨t2, ht2, -, hs⟩ | ⟨t2, ht2, ht2r, -, -⟩)
        · obtain rfl := ht2
          exact hs.symm
        · obtain rfl := ht2
          rw [ht] at ht2r
          cases ht2r
    | teacher =>
      rw [ht] at hrole
      simp only [teacherRoleAsUserRole] at hrole
      simp only [teachersViewProgressSelect, hrole, schoolMatchesCurrent, hsch,
        Bool.and_eq_true, beq_iff_eq, Option.some.injEq]
      constructor
      · rintro ⟨hs, hc⟩
        exact Or.inr ⟨t, rfl, ht, hs.symm,
          (studentInTeacherClasses_iff hT hF e.student_id).mp hc⟩
      · rintro (⟨t2, ht2, ht2r, -⟩ | ⟨t2, ht2, -, hs, hc⟩)
        · obtain rfl := ht2
          rw [ht] at ht2r
          cases ht2r
        · obtain rfl := ht2
          exact ⟨hs.symm, (studentInTeacherClasses_iff hT hF e.student_id).mpr hc⟩

/-- Correctness of the integer rounding scheme: `(2n + d) / (2d)` is the
half-up rounding of the ratio `n / d`, for positive `d`. -/
theorem roundRatioCenti_eq_round (n d : Nat) (hd : 0 < d) :
    (roundRatioCenti n d : ℤ) = round ((n : ℚ) / d) := by
  have hd' : (d : ℚ) ≠ 0 := by positivity
  rw [round_eq, roundRatioCenti]
  have h : (n : ℚ) / d + 1 / 2 = ((2 * n + d : ℕ) : ℚ) / ((2 * d : ℕ) : ℚ) := by
    push_cast
    field_simp
    ring
  rw [h, Rat.floor_natCast_div_natCast]
  exact Int.ofNat_tdiv _ _

/-- Specification of the generated column: the stored hundredths value of
`percentage_score` denotes exactly `ROUND((score / max_score) * 100, 2)` as a
rational number. -/
theorem generatedPercentageScore_spec (score maxScore : Nat) (hmx : 0 < maxScore) :
    decimalValue (generatedPercentageScore score maxScore) =
      ((round (decimalValue score / decimalValue maxScore * 100 * 100) : ℤ) : ℚ) / 100 := by
  have h0 : (maxScore : ℚ) ≠ 0 := by
    exact_mod_cast Nat.pos_iff_ne_zero.mp hmx
  have h1 : decimalValue score / decimalValue maxScore * 100 * 100 =
      ((score * 10000 : ℕ) : ℚ) / maxScore := by
    rw [decimalValue, decimalValue]
    push_cast
    field_simp
    ring
  rw [generatedPercentageScore, decimalValue, h1,
    ← roundRatioCenti_eq_round _ _ hmx]
  push_cast
  ring

/-- C1 (corrected): the combined class-scoped read decision on `progress`
allows access iff the caller owns the entry's student profile (with no check
of the entry's `school_id`), or resolves to a head teacher of the entry's
school, or resolves to a regular teacher of the entry's school such that some
student row with the entry's `student_id` belongs to the teacher's school and
to one of the teacher's classes.  There is no service-role clause in this
policy file, and the student clause ignores tenant boundaries. -/
theorem c1_progress_read_characterization (db : Db) (a : Auth) (e : ProgressRow)
    (hT : atMostOneTeacherPerUser db) :
    rlsProgressSelect db a e = true ↔
      (∃ s ∈ db.students, a.uid = some s.user_id ∧ s.id = e.student_id) ∨
      (∃ t, firstTeacherFor db a = some t ∧ t.role = TeacherRole.head_teacher ∧
        e.school_id = t.school_id) ∨
      (∃ t, firstTeacherFor db a = some t ∧ t.role = TeacherRole.teacher ∧
        e.school_id = t.school_id ∧
        ∃ s ∈ db.students, s.id = e.student_id ∧ s.school_id = t.school_id ∧
          s.class_name ∈ t.classes) := by
  rw [rlsProgressSelect, Bool.or_eq_true, studentsOwnProgressSelect_iff,
    teachersViewProgressSelect_iff db a e hT]

/-- Example head teacher of school 100 (uid 1). -/
def exHeadTeacher : Teacher :=
  { id := 1, user_id := 1, school_id := 100,
    role := TeacherRole.head_teacher, classes := [] }

/-- Example database holding only that head teacher. -/
def exHeadDb : Db :=
  { teachers := [exHeadTeacher], students := [], progress := [] }

/-- Example authenticated session of uid 1. -/
def exAuth1 : Auth :=
  { uid := some 1, aRole := "authenticated", jwtRole := "authenticated" }

/-- Example progress entry of school 100 recorded by teacher 2. -/
def exEntrySchool100 : ProgressRow :=
  { student_id := 10, teacher_id := some 2, school_id := 100,
    subject := "math", score := 5000, max_score := 10000,
    percentage_score := 5000 }

/-- Witness for C1: a head teacher of school 100 may read an entry of school
100 recorded for a student of another teacher's class. -/
theorem c1_progress_read_witness :
    rlsProgressSelect exHeadDb exAuth1 exEntrySchool100 = true :=
  (c1_progress_read_characterization exHeadDb exAuth1 exEntrySchool100
      (by decide)).mpr
    (Or.inr (Or.inl ⟨exHeadTeacher, by decide, rfl, rfl⟩))

/-- Example student row: uid 1 owns student profile 10 at school 100. -/
def exStudent10 : Student :=
  { id := 10, user_id := 1, school_id := 100, class_name := "5A" }

/-- Example database holding only that student. -/
def exStudentDb : Db :=
  { teachers := [], students := [exStudent10], progress := [] }

/-- Example progress entry of school 200 for student 10. -/
def exEntryOtherSchool : ProgressRow :=
  { student_id := 10, teacher_id := none, school_id := 200,
    subject := "math", score := 5000, max_score := 10000,
    percentage_score := 5000 }

/-- Counterexample for C1 as stated: a student reading their own entry is
allowed even though the entry's `school_id` (200) differs from the student's
school (100), so "allowed implies same school" fails on the code. -/
theorem c1_progress_read_counterexample :
    rlsProgressSelect exStudentDb exAuth1 exEntryOtherSchool = true ∧
    get_current_user_school_id exStudentDb exAuth1 = some 100 := by
  decide

/-- Tenant isolation as it does hold in the class-scoped policy file: over a
wellformed database (at most one profile row per user, no dual profiles, and
progress rows carrying their student's school), a caller whose resolved school
differs from the entry's school is denied every operation on that entry. -/
theorem rlsProgress_tenant_isolation (db : Db) (a : Auth) (e : ProgressRow)
    (hCons : progressSchoolConsistent db) (hS : atMostOneStudentPerUser db)
    (hD : noDualProfile db) (he : e ∈ db.progress)
    (hne : get_current_user_school_id db a ≠ some e.school_id) :
    rlsProgressSelect db a e = false ∧ rlsProgressInsert db a e = false ∧
    rlsProgressUpdate db a e = false ∧ rlsProgressDelete db a e = false := by
  have hm : schoolMatchesCurrent db a e.school_id = false := by
    rw [schoolMatchesCurrent]
    exact beq_eq_false_iff_ne.mpr hne
  have hwrite : rlsTeacherWriteCheck db a e.student_id e.school_id = false := by
    simp [rlsTeacherWriteCheck, hm]
  have hview : teachersViewProgressSelect db a e = false := by
    cases hr : get_current_user_role db a <;>
      simp [teachersViewProgressSelect, hr, hm]
  have hown : studentsOwnProgressSelect db a e = false := by
    cases hbe : studentsOwnProgressSelect db a e
    · rfl
    · exfalso
      obtain ⟨s, hsMem, hsUid, hsId⟩ :=
        (studentsOwnProgressSelect_iff db a e).mp hbe
      have hes : e.school_id = s.school_id := hCons e he s hsMem hsId
      have hFt : firstTeacherFor db a = none := by
        rw [firstTeacherFor]
        refine List.find?_eq_none.mpr (fun t htMem hcontra => ?_)
        have : a.uid = some t.user_id := eq_of_beq hcontra
        exact hD t htMem s hsMem
          (Option.some.inj (this.symm.trans hsUid))
      have hFs : ∃ s2, firstStudentFor db a = some s2 := by
        cases hss : firstStudentFor db a with
        | none =>
          exfalso
          have := List.find?_eq_none.mp hss s hsMem
          exact this (by simpa [authUidIs] using hsUid)
        | some s2 => exact ⟨s2, rfl⟩
      obtain ⟨s2, hs2⟩ := hFs
      have hs2Mem : s2 ∈ db.students := List.mem_of_find?_eq_some hs2
      have hs2Uid : a.uid = some s2.user_id := by
        simpa [authUidIs] using List.find?_some hs2
      obtain rfl : s2 = s :=
        hS s2 hs2Mem s hsMem (Option.some.inj (hs2Uid.symm.trans hsUid))
      have hschool : get_current_user_school_id db a = some s2.school_id := by
        simp [get_current_user_school_id, hFt, hs2]
      exact hne (by rw [hschool, ← hes])
  exact ⟨by simp [rlsProgressSelect, hown, hview],
    by simp [rlsProgressInsert, hwrite],
    by simp [rlsProgressUpdate, hwrite],
    by simp [rlsProgressDelete, hwrite]⟩

/-- C2 (code bug): under the final "ULTIMATE FIX" policy set, any
authenticated session - here uid 1, whose resolved school is 100 - may read,
insert, update and delete a progress entry of school 200, because the
policies test only `auth.role() = 'authenticated'`.  This contradicts
absolute tenant isolation. -/
theorem c2_cross_school_access_eval :
    get_current_user_school_id exStudentDb exAuth1 = some 100 ∧
    exEntryOtherSchool.school_id = 200 ∧
    ultimateProgressSelect exAuth1 = true ∧
    ultimateProgressInsert exAuth1 = true ∧
    ultimateProgressUpdate exAuth1 = true ∧
    ultimateProgressDelete exAuth1 = true ∧
    schemaProgressSelect exStudentDb
      { uid := none, aRole := "service_role", jwtRole := "service_role" }
      exEntryOtherSchool = true := by
  decide

/-- C3 (corrected): the class-scoped create decision on `progress` allows an
insert iff the caller resolves to a teacher row whose school matches the new
row's school, and either that row is a head teacher or some student row with
the inserted `student_id` belongs to the teacher's school and classes.  No
reason code exists at this layer. -/
theorem c3_progress_create_characterization (db : Db) (a : Auth)
    (r : ProgressRow) (hT : atMostOneTeacherPerUser db) :
    rlsProgressInsert db a r = true ↔
      ∃ t, firstTeacherFor db a = some t ∧ r.school_id = t.school_id ∧
        (t.role = TeacherRole.head_teacher ∨
         ∃ s ∈ db.students, s.id = r.student_id ∧ s.school_id = t.school_id ∧
           s.class_name ∈ t.classes) :=
  rlsTeacherWriteCheck_iff db a r.student_id r.school_id hT

/-- Example regular teacher (uid 1, profile 20) teaching class 5A at school 100. -/
def exTeacher20 : Teacher :=
  { id := 20, user_id := 1, school_id := 100,
    role := TeacherRole.teacher, classes := ["5A"] }

/-- Example student 10 of class 5B at school 100 (not one of teacher 20's). -/
def exStudent5B : Student :=
  { id := 10, user_id := 2, school_id := 100, class_name := "5B" }

/-- Example database with teacher 20 and student 10. -/
def exClassDb : Db :=
  { teachers := [exTeacher20], students := [exStudent5B], progress := [] }

/-- Example insert payload: an entry for student 10 at school 100, recorded
under teacher 20's own profile id. -/
def exInsertRow : ProgressRow :=
  { student_id := 10, teacher_id := some 20, school_id := 100,
    subject := "math", score := 5000, max_score := 10000,
    percentage_score := 5000 }

/-- Witness for C3: the class-scoped insert policy denies teacher 20's
insert for out-of-class student 10 (the characterization's right side fails:
the only resolvable teacher row is not a head teacher and student 10's class
is 5B, not 5A). -/
theorem c3_progress_create_witness :
    rlsProgressInsert exClassDb exAuth1 exInsertRow = false := by
  have h := c3_progress_create_characterization exClassDb exAuth1 exInsertRow
    (by decide)
  cases hbe : rlsProgressInsert exClassDb exAuth1 exInsertRow
  · rfl
  · exfalso
    obtain ⟨t, hFt, -, hcond⟩ := h.mp hbe
    have ht : t = exTeacher20 := by
      have : firstTeacherFor exClassDb exAuth1 = some exTeacher20 := by decide
      exact Option.some.inj (hFt.symm.trans this)
    subst ht
    rcases hcond with hh | ⟨s, hsMem, -, -, hcls⟩
    · cases hh
    · have hs : s = exStudent5B := by
        cases hsMem with
        | head => rfl
        | tail _ h2 => cases h2
      subst hs
      exact absurd hcls (by decide)

/-- Counterexample for C3 as stated: the later "Fixed RLS Policies (No
Recursion)" insert policy lets regular teacher 20 insert the very same entry
for out-of-class student 10 (class 5B, teacher's classes are ["5A"]) - it
checks only teacher_id ownership and school, so the out-of-scope create is
not denied by that policy generation. -/
theorem c3_progress_create_counterexample :
    fixedProgressInsert exClassDb exAuth1 exInsertRow = true ∧
    exTeacher20.role = TeacherRole.teacher ∧
    exStudent5B.class_name ∉ exTeacher20.classes := by
  decide

/-- C4 (corrected): under the class-scoped policy file, update and delete of
a progress entry are allowed iff the caller resolves to a teacher row of the
entry's school which is a head teacher or has the entry's student in class.
The entry's `teacher_id` is irrelevant: a head teacher may touch any entry of
the school, and a regular teacher may touch any entry of a student in their
classes, whoever created it. -/
theorem c4_progress_update_delete_characterization (db : Db) (a : Auth)
    (e : ProgressRow) (hT : atMostOneTeacherPerUser db) :
    (rlsProgressUpdate db a e = true ∧ rlsProgressDelete db a e = true) ↔
      ∃ t, firstTeacherFor db a = some t ∧ e.school_id = t.school_id ∧
        (t.role = TeacherRole.head_teacher ∨
         ∃ s ∈ db.students, s.id = e.student_id ∧ s.school_id = t.school_id ∧
           s.class_name ∈ t.classes) := by
  have h := rlsTeacherWriteCheck_iff db a e.student_id e.school_id hT
  constructor
  · rintro ⟨h1, -⟩
    exact h.mp h1
  · intro hr
    exact ⟨h.mpr hr, h.mpr hr⟩

/-- Witness for C4: head teacher 1 of school 100 may update and delete the
school-100 entry recorded by teacher 2. -/
theorem c4_progress_update_delete_witness :
    rlsProgressUpdate exHeadDb exAuth1 exEntrySchool100 = true ∧
    rlsProgressDelete exHeadDb exAuth1 exEntrySchool100 = true :=
  (c4_progress_update_delete_characterization exHeadDb exAuth1
      exEntrySchool100 (by decide)).mpr
    ⟨exHeadTeacher, by decide, by decide, Or.inl (by decide)⟩

/-- Example student 11 of class 5A (one of teacher 20's classes). -/
def exStudent5A : Student :=
  { id := 11, user_id := 3, school_id := 100, class_name := "5A" }

/-- Example database with teacher 20 and student 11. -/
def exClassDb2 : Db :=
  { teachers := [exTeacher20], students := [exStudent5A], progress := [] }

/-- Example entry for student 11 recorded by a different teacher (id 21). -/
def exForeignEntry : ProgressRow :=
  { student_id := 11, teacher_id := some 21, school_id := 100,
    subject := "math", score := 5000, max_score := 10000,
    percentage_score := 5000 }

/-- Counterexample for C4 as stated: regular teacher 20 may update an entry
whose `teacher_id` is 21 - not a profile they own - because the class-scoped
policy keys on the student's class, not on the creating teacher. -/
theorem c4_progress_update_counterexample :
    rlsProgressUpdate exClassDb2 exAuth1 exForeignEntry = true ∧
    firstTeacherFor exClassDb2 exAuth1 = some exTeacher20 ∧
    exTeacher20.role = TeacherRole.teacher ∧
    exForeignEntry.teacher_id = some 21 ∧
    exTeacher20.id = 20 := by
  decide

/-- C5 (corrected): whenever the teacher lookup succeeds, `getUserProfile`
returns the teacher profile - regardless of whatever student rows exist for
the same user.  A dual-profile principal is resolved to the teacher side, not
rejected. -/
theorem c5_resolve_teacher_priority (db : Db) (a : Auth) (t : Teacher)
    (h : singleTeacherFor db a = some t) :
    getUserProfile db a =
      Except.ok (UserProfile.teacherProfile t, teacherRoleAsUserRole t.role) := by
  simp [getUserProfile, h]

/-- Example student profile owned by the same uid 1 as teacher 20. -/
def exDualStudent : Student :=
  { id := 30, user_id := 1, school_id := 100, class_name := "5A" }

/-- Example database where uid 1 owns both a teacher row and a student row. -/
def exDualDb : Db :=
  { teachers := [exTeacher20], students := [exDualStudent], progress := [] }

/-- Witness for C5: on the dual-profile database the teacher lookup succeeds
and the resolver returns the teacher profile. -/
theorem c5_resolve_teacher_priority_witness :
    exDualDb.students.any (fun s => authUidIs exAuth1 s.user_id) = true ∧
    getUserProfile exDualDb exAuth1 =
      Except.ok (UserProfile.teacherProfile exTeacher20,
        teacherRoleAsUserRole exTeacher20.role) :=
  ⟨by decide, c5_resolve_teacher_priority exDualDb exAuth1 exTeacher20 (by rfl)⟩

/-- Counterexample for C5 as stated: uid 1 owns both profile types, yet
`getUserProfile` succeeds with the teacher profile instead of failing with an
integrity error. -/
theorem c5_resolve_counterexample :
    exTeacher20 ∈ exDualDb.teachers ∧ exDualStudent ∈ exDualDb.students ∧
    exTeacher20.user_id = 1 ∧ exDualStudent.user_id = 1 ∧
    exAuth1.uid = some 1 ∧
    getUserProfile exDualDb exAuth1 =
      Except.ok (UserProfile.teacherProfile exTeacher20, UserRole.teacher) := by
  refine ⟨by decide, by decide, rfl, rfl, rfl, by rfl⟩

/-- C6 (corrected): when the caller's uid matches no teacher row and no
student row, `getUserProfile` throws "User profile not found" - but the SQL
helper `get_current_user_role` substitutes the default role 'student' for the
unresolvable identity (while `get_current_user_school_id` returns NULL). -/
theorem c6_resolver_unknown_user (db : Db) (a : Auth)
    (hT : ∀ t ∈ db.teachers, authUidIs a t.user_id = false)
    (hS : ∀ s ∈ db.students, authUidIs a s.user_id = false) :
    getUserProfile db a = Except.error ("User profile not found") ∧
    get_current_user_role db a = UserRole.student ∧
    get_current_user_school_id db a = none := by
  have hft : firstTeacherFor db a = none := by
    rw [firstTeacherFor]
    exact List.find?_eq_none.mpr (fun t ht => by simp [hT t ht])
  have hfs : firstStudentFor db a = none := by
    rw [firstStudentFor]
    exact List.find?_eq_none.mpr (fun s hs => by simp [hS s hs])
  have hfilt : db.teachers.filter (fun t => authUidIs a t.user_id) = [] :=
    List.filter_eq_nil_iff.mpr (fun t ht => by simp [hT t ht])
  have hfils : db.students.filter (fun s => authUidIs a s.user_id) = [] :=
    List.filter_eq_nil_iff.mpr (fun s hs => by simp [hS s hs])
  have hst : singleTeacherFor db a = none := by
    rw [singleTeacherFor, hfilt]
  have hss : singleStudentFor db a = none := by
    rw [singleStudentFor, hfils]
  exact ⟨by simp [getUserProfile, hst, hss],
    by simp [get_current_user_role, hft],
    by simp [get_current_user_school_id, hft, hfs]⟩

/-- Example empty database. -/
def exEmptyDb : Db :=
  { teachers := [], students := [], progress := [] }

/-- Witness for C6: on the empty database, uid 1 resolves to an error in the
client resolver, while the SQL helpers yield role 'student' and school NULL. -/
theorem c6_resolver_unknown_user_witness :
    getUserProfile exEmptyDb exAuth1 = Except.error ("User profile not found") ∧
    get_current_user_role exEmptyDb exAuth1 = UserRole.student ∧
    get_current_user_school_id exEmptyDb exAuth1 = none :=
  c6_resolver_unknown_user exEmptyDb exAuth1 (by decide) (by decide)

/-- Counterexample for C6 as stated: for an unresolvable identity the SQL
role helper does substitute the lowest-privilege default role 'student'
rather than failing. -/
theorem c6_resolver_counterexample :
    exEmptyDb.teachers = [] ∧ exEmptyDb.students = [] ∧
    get_current_user_role exEmptyDb exAuth1 = UserRole.student := by
  decide

/-- C7 (corrected): the schema-level service-role policies (`FOR ALL USING
(auth.jwt() ->> 'role' = 'service_role')`) grant a service caller every
operation on every progress row of every school - reads are not limited to a
single school and writes are not denied. -/
theorem c7_service_role_unrestricted (db : Db) (a : Auth) (e r : ProgressRow)
    (h : isServiceRole a = true) :
    schemaProgressSelect db a e = true ∧ schemaProgressInsert db a r = true ∧
    schemaProgressUpdate db a e = true ∧ schemaProgressDelete db a e = true := by
  simp [schemaProgressSelect, schemaProgressInsert, schemaProgressUpdate,
    schemaProgressDelete, h]

/-- Example service-role session (no uid, service claims). -/
def exServiceAuth : Auth :=
  { uid := none, aRole := "service_role", jwtRole := "service_role" }

/-- Witness for C7: the service session gets all four operations on the
school-200 entry although it resolves to no school at all. -/
theorem c7_service_role_witness :
    schemaProgressSelect exStudentDb exServiceAuth exEntryOtherSchool = true ∧
    schemaProgressInsert exStudentDb exServiceAuth exEntryOtherSchool = true ∧
    schemaProgressUpdate exStudentDb exServiceAuth exEntryOtherSchool = true ∧
    schemaProgressDelete exStudentDb exServiceAuth exEntryOtherSchool = true :=
  c7_service_role_unrestricted exStudentDb exServiceAuth exEntryOtherSchool
    exEntryOtherSchool (by decide)

/-- Counterexample for C7 as stated: the claim promises the service role no
write access and single-school reads, yet the embedded policies accept the
service session's insert, update and delete, with no school attached to the
principal at all. -/
theorem c7_service_role_counterexample :
    get_current_user_school_id exStudentDb exServiceAuth = none ∧
    exEntryOtherSchool.school_id = 200 ∧
    schemaProgressInsert exStudentDb exServiceAuth exEntryOtherSchool = true ∧
    schemaProgressUpdate exStudentDb exServiceAuth exEntryOtherSchool = true ∧
    schemaProgressDelete exStudentDb exServiceAuth exEntryOtherSchool = true := by
  decide

/-- C8 (corrected): the schema-level policy "Users can view schools" makes
every school row readable by everyone (scope = all schools), but the
class-scoped policy "Users can view their own school" restricts visibility to
the single school returned by `get_current_user_school_id()`. -/
theorem c8_schools_read_characterization (db : Db) (a : Auth) (sch : School) :
    schemaSchoolsSelect sch = true ∧
    (rlsSchoolsSelect db a sch = true ↔
      get_current_user_school_id db a = some sch.id) := by
  refine ⟨rfl, ?_⟩
  rw [rlsSchoolsSelect]
  exact beq_iff_eq

/-- Example school row with id 200. -/
def exSchool200 : School :=
  { id := 200, name := "Riverside High School" }

/-- Counterexample for C8 as stated: under the class-scoped policy file, the
student principal of school 100 cannot read the school row with id 200, so
the scope is not "all schools" there. -/
theorem c8_schools_read_counterexample :
    rlsSchoolsSelect exStudentDb exAuth1 exSchool200 = false ∧
    get_current_user_school_id exStudentDb exAuth1 = some 100 := by
  decide

/-- C9 (confirmed): `createProgress` fails without inserting when the caller
is unauthenticated or owns no teacher profile; otherwise it inserts exactly
one row whose `teacher_id` and `school_id` are taken from the caller's
teacher row - whatever the payload carried for those columns. -/
theorem c9_createProgress_overrides (db : Db) (a : Auth)
    (p : CreateProgressRequest) :
    match a.uid, singleTeacherFor db a with
    | none, _ =>
      createProgress db a p = Except.error ("User not authenticated") ∧
      progressAfterCreate db a p = db.progress
    | some _, none =>
      createProgress db a p = Except.error ("Teacher profile not found") ∧
      progressAfterCreate db a p = db.progress
    | some _, some t =>
      ∃ row, createProgress db a p = Except.ok row ∧
        row.teacher_id = some t.id ∧ row.school_id = t.school_id ∧
        row.student_id = p.student_id ∧ row.subject = p.subject ∧
        row.score = p.score ∧ row.max_score = p.max_score ∧
        progressAfterCreate db a p = db.progress ++ [row] := by
  cases hu : a.uid with
  | none =>
    exact ⟨by simp [createProgress, hu],
      by simp [progressAfterCreate, createProgress, hu]⟩
  | some u =>
    cases hst : singleTeacherFor db a with
    | none =>
      exact ⟨by simp [createProgress, hu, hst],
        by simp [progressAfterCreate, createProgress, hu, hst]⟩
    | some t =>
      have hrow : createProgress db a p = Except.ok
          { student_id := p.student_id
            teacher_id := some t.id
            school_id := t.school_id
            subject := p.subject
            score := p.score
            max_score := p.max_score
            percentage_score := generatedPercentageScore p.score p.max_score } := by
        simp [createProgress, hu, hst]
      exact ⟨_, hrow, rfl, rfl, rfl, rfl, rfl, rfl,
        by simp [progressAfterCreate, hrow]⟩

/-- C10 (confirmed): any row stored through the insert gate, and any result
of the update gate, satisfies the CHECK constraints (decimal score between 0
and 100, positive max score) and carries as `percentage_score` exactly
`ROUND((score / max_score) * 100, 2)`, recomputed from the stored columns;
neither gate accepts a caller-chosen percentage. -/
theorem c10_progress_schema_invariants (studentId : Nat) (teacherId : Option Nat)
    (schoolId : Nat) (subj : String) (score maxScore score2 maxScore2 : Nat)
    (e e2 : ProgressRow)
    (hIns : insertProgressRow studentId teacherId schoolId subj score maxScore =
      some e)
    (hUpd : updateProgressScores e score2 maxScore2 = some e2) :
    (0 ≤ decimalValue e.score ∧ decimalValue e.score ≤ 100 ∧
      0 < decimalValue e.max_score ∧
      decimalValue e.percentage_score =
        ((round (decimalValue e.score / decimalValue e.max_score * 100 * 100) :
          ℤ) : ℚ) / 100) ∧
    (0 ≤ decimalValue e2.score ∧ decimalValue e2.score ≤ 100 ∧
      0 < decimalValue e2.max_score ∧
      decimalValue e2.percentage_score =
        ((round (decimalValue e2.score / decimalValue e2.max_score * 100 * 100) :
          ℤ) : ℚ) / 100) := by
  rw [insertProgressRow] at hIns
  rw [updateProgressScores] at hUpd
  split_ifs at hIns with hc1
  · split_ifs at hUpd with hc2
    · obtain ⟨hsc1, hmx1⟩ := hc1
      obtain ⟨hsc2, hmx2⟩ := hc2
      obtain rfl : _ = e := Option.some.inj hIns
      obtain rfl : _ = e2 := Option.some.inj hUpd
      refine ⟨⟨?_, ?_, ?_, ?_⟩, ⟨?_, ?_, ?_, ?_⟩⟩
      · rw [decimalValue]
        positivity
      · rw [decimalValue, div_le_iff₀ (by norm_num)]
        exact_mod_cast hsc1
      · rw [decimalValue]
        have : (0 : ℚ) < maxScore := by exact_mod_cast hmx1
        positivity
      · exact generatedPercentageScore_spec score maxScore hmx1
      · rw [decimalValue]
        positivity
      · rw [decimalValue, div_le_iff₀ (by norm_num)]
        exact_mod_cast hsc2
      · rw [decimalValue]
        have : (0 : ℚ) < maxScore2 := by exact_mod_cast hmx2
        positivity
      · exact generatedPercentageScore_spec score2 maxScore2 hmx2

/-- Example stored row: 85.00 out of max 100.00, stored percentage 85.00. -/
def exRow85 : ProgressRow :=
  { student_id := 10, teacher_id := some 20, school_id := 100,
    subject := "math", score := 8500, max_score := 10000,
    percentage_score := 8500 }

/-- Example row after updating the score to 91.00: percentage 91.00. -/
def exRow91 : ProgressRow :=
  { student_id := 10, teacher_id := some 20, school_id := 100,
    subject := "math", score := 9100, max_score := 10000,
    percentage_score := 9100 }

/-- Witness for C10: inserting score 85.00 / 100.00 stores percentage 85.00,
and updating the row to 91.00 recomputes the percentage to 91.00; both
satisfy the CHECK constraints and the rounding specification. -/
theorem c10_progress_schema_invariants_witness :
    (0 ≤ decimalValue exRow85.score ∧ decimalValue exRow85.score ≤ 100 ∧
      0 < decimalValue exRow85.max_score ∧
      decimalValue exRow85.percentage_score =
        ((round (decimalValue exRow85.score / decimalValue exRow85.max_score *
          100 * 100) : ℤ) : ℚ) / 100) ∧
    (0 ≤ decimalValue exRow91.score ∧ decimalValue exRow91.score ≤ 100 ∧
      0 < decimalValue exRow91.max_score ∧
      decimalValue exRow91.percentage_score =
        ((round (decimalValue exRow91.score / decimalValue exRow91.max_score *
          100 * 100) : ℤ) : ℚ) / 100) :=
  c10_progress_schema_invariants 10 (some 20) 100 "math" 8500 10000 9100 10000
    exRow85 exRow91 (by decide) (by decide)
